import Mathlib

/-!
Verification of the streetcode rule-based article classifier.

Shallow embedding of `src/docs/plans/streetcode_classifier_rules.py`.

The Python module classifies a news article (title, body) with hand-written
regular-expression rules.  We embed the regex dialect actually used by the
rule set (case-insensitive search, alternation, `.`/`.*`/`.+`, `\d`, `\w`,
`[\d,]`, `{4}`, `?`, `^`, `$`, `\b`, fixed-width negative lookbehind and
negative lookahead) as an executable matcher over `List Char`, transcribe
every pattern table, and translate `classify_article` clause by clause.

Python's `re.search(p, t, re.IGNORECASE)` is modelled by `reSearch p t`
with a matcher whose character comparison lowercases both sides (ASCII),
and `text.lower()` by mapping `lowerA` over the text.
-/

/-- ASCII lowercasing on code points: `A`-`Z` (65-90) map to 97-122. -/
def lowN (n : Nat) : Nat := if 65 ≤ n ∧ n ≤ 90 then n + 32 else n

/-- ASCII lowercasing of a character (model of Python `str.lower` on the
ASCII range, which is all the rule set distinguishes). -/
def lowerA (c : Char) : Char := Char.ofNat (lowN c.toNat)

/-- Case-insensitive character comparison (model of `re.IGNORECASE`). -/
def charEq (c d : Char) : Bool := lowN c.toNat == lowN d.toNat

/-- ASCII digit, `\d`. -/
def isDigitC (c : Char) : Bool := 48 ≤ c.toNat && c.toNat ≤ 57

/-- ASCII word character, `\w` (letter, digit or underscore). -/
def isWordC (c : Char) : Bool :=
  isDigitC c || (65 ≤ c.toNat && c.toNat ≤ 90) || (97 ≤ c.toNat && c.toNat ≤ 122)
    || c.toNat == 95

/-- ASCII whitespace (space, tab, newline, carriage return). -/
def isWsC (c : Char) : Bool :=
  c.toNat == 32 || c.toNat == 9 || c.toNat == 10 || c.toNat == 13

/-- The character classes occurring in the rule set. -/
inductive CCls where
  | dot        -- `.`  : any character except newline
  | digit      -- `\d`
  | wordc      -- `\w`
  | digitComma -- `[\d,]`
deriving DecidableEq, Repr

def cmatch : CCls → Char → Bool
  | .dot, c => !(c.toNat == 10)
  | .digit, c => isDigitC c
  | .wordc, c => isWordC c
  | .digitComma, c => isDigitC c || c.toNat == 44

/-- Abstract syntax of the regex fragment used by the classifier. -/
inductive RE where
  | eps
  | chr (p : CCls)
  | str (s : String)
  | cat (a b : RE)
  | alt (a b : RE)
  | opt (a : RE)
  | star (p : CCls)
  | plus (p : CCls)
  | rep (p : CCls) (n : Nat)
  | bos      -- `^` (no re.MULTILINE in the source, so: start of string)
  | eos         -- `$` (end of string, or just before a final newline)
  | wordB       -- `\b`
  | lbNeg (s : String)  -- fixed-width negative lookbehind `(?<!s)`
  | laNeg (a : RE)      -- negative lookahead `(?!a)`
deriving Repr

/-- Match a literal (case-insensitively); `l` is the reversed consumed
prefix, `r` the remaining input, `k` the continuation. -/
def matchLit : List Char → List Char → List Char → (List Char → List Char → Bool) → Bool
  | [], l, r, k => k l r
  | _ :: _, _, [], _ => false
  | c :: cs, l, d :: r, k => charEq c d && matchLit cs (d :: l) r k

/-- All ways to let a character-class star consume a prefix of `r`. -/
def starMatch (p : CCls) : List Char → List Char → (List Char → List Char → Bool) → Bool
  | l, [], k => k l []
  | l, c :: rest, k => k l (c :: rest) || (cmatch p c && starMatch p (c :: l) rest k)

/-- Exactly `n` repetitions of a character class. -/
def repMatch (p : CCls) : Nat → List Char → List Char → (List Char → List Char → Bool) → Bool
  | 0, l, r, k => k l r
  | _ + 1, _, [], _ => false
  | n + 1, l, c :: r, k => cmatch p c && repMatch p n (c :: l) r k

/-- Is the head position of `l` (the character just before the current
position) a word character? -/
def isWordAt : List Char → Bool
  | [] => false
  | c :: _ => isWordC c

/-- Does the consumed text (reversed in `l`) end with the given reversed
literal?  Used for fixed-width negative lookbehind. -/
def revEnds : List Char → List Char → Bool
  | [], _ => true
  | _ :: _, [] => false
  | c :: cs, d :: ds => charEq c d && revEnds cs ds

/-- The matcher.  `mre r l rt k` holds when `r` matches some prefix of
`rt` (with `l` the reversed text already consumed, for `^`, `\b` and
lookbehind) and the continuation `k` accepts the updated position. -/
def mre : RE → List Char → List Char → (List Char → List Char → Bool) → Bool
  | .eps, l, r, k => k l r
  | .chr _, _, [], _ => false
  | .chr p, l, c :: r, k => cmatch p c && k (c :: l) r
  | .str s, l, r, k => matchLit s.toList l r k
  | .cat a b, l, r, k => mre a l r (fun l' r' => mre b l' r' k)
  | .alt a b, l, r, k => mre a l r k || mre b l r k
  | .opt a, l, r, k => k l r || mre a l r k
  | .star p, l, r, k => starMatch p l r k
  | .plus _, _, [], _ => false
  | .plus p, l, c :: r, k => cmatch p c && starMatch p (c :: l) r k
  | .rep p n, l, r, k => repMatch p n l r k
  | .bos, l, r, k => l.isEmpty && k l r
  | .eos, l, r, k =>
    (match r with | [] => true | c :: rest => rest.isEmpty && c.toNat == 10) && k l r
  | .wordB, l, r, k => (isWordAt l != isWordAt r) && k l r
  | .lbNeg s, l, r, k => !revEnds s.toList.reverse l && k l r
  | .laNeg a, l, r, k => !(mre a l r (fun _ _ => true)) && k l r

/-- Try to match at the current position or at any later one. -/
def searchFrom (r : RE) : List Char → List Char → Bool
  | l, [] => mre r l [] (fun _ _ => true)
  | l, c :: rest => mre r l (c :: rest) (fun _ _ => true) || searchFrom r (c :: l) rest

/-- Model of `re.search(r, t, re.IGNORECASE) is not None`. -/
def reSearch (r : RE) (t : List Char) : Bool := searchFrom r [] t

/- Smart constructors used to transcribe the Python pattern strings. -/

def lit (s : String) : RE := .str s

def alts : List RE → RE
  | [] => .eps
  | [r] => r
  | r :: rs => .alt r (alts rs)

def altsS (ss : List String) : RE := alts (ss.map lit)

def cats : List RE → RE
  | [] => .eps
  | [r] => r
  | r :: rs => .cat r (cats rs)

def dot1 : RE := .chr .dot
def dotStar : RE := .star .dot
def dotPlus : RE := .plus .dot
def optS (s : String) : RE := .opt (lit s)

/-! ## Pattern registry (lines 17-166 of the source) -/

-- EXCLUDE_TITLE_PATTERNS (lines 18-26)
def EXCLUDE_TITLE_PATTERNS : List RE := [
  cats [.bos, altsS ["Register", "Sign up", "Login", "Subscribe"]],
  cats [.bos, alts [cats [lit "Listing", optS "s", lit " By"], lit "Directory",
    lit "Careers", lit "Jobs"]],
  cats [lit "Classified", optS "s", .eos],
  cats [.bos, .plus .wordc, lit " ",
    altsS ["Physio", "Clinic", "Centre", "Center", "Service"], .eos],
  cats [.bos, lit "Local ", altsS ["Sports", "Events", "Weather"], .eos],
  cats [.bos, lit "Spotlight", .eos],
  alts [cats [lit "Part", dot1, lit "Time"], cats [lit "Full", dot1, lit "Time"],
    lit "Hiring", lit "Position", lit "Vacancy"]]

-- NON_CRIME_TITLE_PATTERNS (lines 28-37)
def NON_CRIME_TITLE_PATTERNS : List RE := [
  altsS ["retirement", "retires", "retiring"],
  altsS ["recipe", "restaurant", "dining", "chef", "cuisine"],
  altsS ["concert", "festival", "exhibition", "lineup"],
  cats [lit "shoot", optS "s", lit " down", dotStar, altsS ["rumour", "bill", "proposal", "idea"]],
  cats [altsS ["water main", "pipe"], lit " break"],
  lit "turning heads",
  cats [lit "Trapper", optS "s", dotStar, .rep .digit 4]]

-- VIOLENT_CRIME_PATTERNS (lines 40-68)
def VIOLENT_CRIME_PATTERNS : List (RE × ℕ) := [
  (altsS ["murder", "homicide", "manslaughter"], 95),
  (cats [.lbNeg "photo ", .lbNeg "film ",
    altsS ["shooting", "shootout", "shot dead", "shots fired", "gunfire", "gunshot"]], 90),
  (altsS ["stab", "stabbing", "stabbed", "knife attack"], 90),
  (cats [altsS ["assault", "assaulted", "beaten", "beating"], dotStar,
    altsS ["charged", "arrest", "police", "victim", "hospital"]], 85),
  (cats [altsS ["charged", "multiple", "violent"], dotStar, altsS ["assault", "assaults"]], 85),
  (cats [lit "assault", dotStar, altsS ["charged", "arrest", "melee", "victim"]], 85),
  (altsS ["kidnap", "abduct", "hostage"], 90),
  (altsS ["sexual assault", "rape", "sex assault", "sexual exploitation"], 90),
  (cats [altsS ["human remains", "body", "person", "child", "man", "woman"],
    lit " found dead"], 80),
  (cats [lit "found dead", dotStar, altsS ["police", "investigate", "home", "property"]], 80),
  (alts [lit "armed robbery", cats [lit "robbery", dotPlus, lit "weapon"]], 85),
  (cats [alts [cats [lit "hit", dot1, lit "and", dot1, lit "run"], lit "hit and run"], dotStar,
    altsS ["dies", "dead", "fatal", "kill", "charged"]], 85),
  (cats [altsS ["attack", "attacked"], dotStar,
    altsS ["charged", "arrest", "victim", "injur", "police", "guard"]], 80),
  (cats [altsS ["guard", "officer", "worker"], lit " attacked"], 80),
  (cats [altsS ["intimate partner", "domestic"], dotStar, altsS ["violence", "assault"]], 85),
  (cats [altsS ["fleeing", "fled"], dotStar, altsS ["violence", "assault"]], 80),
  (cats [altsS ["baby", "child", "infant"], dotStar, altsS ["abandoned", "abandonment"]], 85),
  (cats [lit "plead", optS "s", lit " guilty", dotStar,
    altsS ["assault", "attack", "violence"]], 85),
  (cats [lit "arrested", dotStar, altsS ["laceration", "hospitalized", "injur"]], 80)]

-- PROPERTY_CRIME_PATTERNS (lines 70-87)
def PROPERTY_CRIME_PATTERNS : List (RE × ℕ) := [
  (cats [altsS ["theft", "stolen", "shoplifting", "larceny"], dotStar,
    altsS ["police", "arrest", "charged", "suspect", "investigating"]], 85),
  (cats [altsS ["police", "investigating"], dotStar, altsS ["stolen", "theft"]], 80),
  (cats [alts [lit "mezuzah", cats [lit "item", optS "s"], lit "property"], lit " stolen"], 80),
  (cats [.plus .digit, lit " arrest", optS "s", dotStar,
    altsS ["theft", "retail", "shoplifting"]], 85),
  (cats [lit "arrest", optS "s", dotStar, alts [cats [lit "charge", optS "s"], lit "laid"],
    dotStar, altsS ["theft", "retail"]], 85),
  (cats [alts [lit "burglary", cats [lit "break", dot1, lit "in"],
      cats [lit "breaking", dotPlus, lit "entering"]],
    .laNeg (cats [dotStar, altsS ["water", "pipe", "main"]])], 85),
  (cats [lit "arson", .laNeg (cats [dotStar, altsS ["water", "pipe"]])], 80),
  (cats [altsS ["vandalism", "vandalized"], dotStar, altsS ["charged", "arrest"]], 80),
  (altsS ["car theft", "auto theft", "vehicle stolen", "carjacking"], 85),
  (cats [lit "$", .plus .digitComma, dotStar, altsS ["stolen", "theft", "booze stolen"]], 85),
  (cats [altsS ["rammed", "ram"], dotStar, altsS ["stolen", "police"]], 80),
  (cats [lit "stolen vehicle", dotStar, altsS ["ram", "cruiser", "police"]], 80)]

-- DRUG_CRIME_PATTERNS (lines 89-101)
def DRUG_CRIME_PATTERNS : List (RE × ℕ) := [
  (altsS ["drug bust", "drug raid", "drug seizure"], 90),
  (cats [altsS ["fentanyl", "cocaine", "heroin", "meth", "methamphetamine"], dotStar,
    altsS ["seiz", "bust", "arrest", "charged", "trafficking"]], 90),
  (cats [altsS ["trafficking", "trafficker", "dealer"], dotStar, altsS ["drug", "narcotic"]], 85),
  (cats [lit "possession", dotPlus, altsS ["intent", "purpose"]], 80),
  (cats [lit "seize", dotPlus, lit "$", .plus .digitComma, dotStar,
    altsS ["drug", "cocaine", "fentanyl"]], 90),
  (cats [lit "seize", optS "s", dotStar,
    altsS ["fentanyl", "cocaine", "heroin", "drug", "narcotic", "doses"]], 90),
  (cats [altsS ["fentanyl", "cocaine", "heroin"], dotStar,
    altsS ["doses", "seized", "weapons"]], 90),
  (cats [lit "intercept", dotStar, altsS ["fentanyl", "cocaine", "trafficker", "drug"]], 90),
  (cats [altsS ["fentanyl", "drug"], lit " trafficker"], 90)]

-- GANG_PATTERNS (lines 103-106)
def GANG_PATTERNS : List (RE × ℕ) := [
  (alts [cats [lit "gang", dot1, lit "related"], lit "gang member", lit "gang shooting",
    lit "gang violence"], 90),
  (alts [cats [lit "drive", dot1, lit "by"], lit "turf war", lit "gang rivalry"], 85)]

-- ORGANIZED_CRIME_PATTERNS (lines 108-113)
def ORGANIZED_CRIME_PATTERNS : List (RE × ℕ) := [
  (altsS ["organized crime", "crime syndicate", "crime ring"], 85),
  (altsS ["mafia", "mob boss", "cartel"], 85),
  (altsS ["human trafficking", "trafficking ring"], 85),
  (altsS ["money laundering", "RICO"], 80)]

-- the escape / standoff regexes, shared between CRIMINAL_JUSTICE_PATTERNS
-- (lines 122, 125-126) and the inline checks of classify_article (254, 257, 260)
def escJailRE : RE := cats [lit "escape", optS "s", dotStar, altsS ["jail", "prison", "custody"]]
def jailEscapeRE : RE := cats [altsS ["jail", "prison"], lit " escape"]
def standoffArrRE : RE := cats [lit "standoff", dotStar, altsS ["arrest", "charged"]]
def standaloneRE : RE := altsS ["standoff", "escape"]

-- CRIMINAL_JUSTICE_PATTERNS (lines 115-127)
def CRIMINAL_JUSTICE_PATTERNS : List (RE × ℕ) := [
  (altsS ["charged", "arrest", "arrested"], 70),
  (altsS ["sentenced", "sentencing", "conviction", "convicted"], 75),
  (altsS ["trial", "verdict", "arraignment"], 70),
  (cats [altsS ["plead", "pleads", "pleaded"], lit " guilty"], 80),
  (lit "warrant", 65),
  (cats [lit "standoff", dotStar, altsS ["arrest", "charged", "custody"]], 80),
  (cats [altsS ["police", "armed"], lit " standoff"], 75),
  (escJailRE, 85),
  (jailEscapeRE, 85)]

-- IMPAIRED_DRIVING_PATTERNS (lines 130-133)
def IMPAIRED_DRIVING_PATTERNS : List RE := [
  altsS ["impaired driving", "drunk driving", "DUI", "DWI"],
  cats [altsS ["impaired", "intoxicated"], dotPlus, altsS ["driver", "driving", "motorist"]]]

-- INTERNATIONAL_INDICATORS (lines 135-139)
def INTERNATIONAL_INDICATORS : List RE := [
  lit "Minneapolis", cats [.wordB, lit "US", .wordB], lit "U.S.", lit "American", lit "Mexico",
  lit "Dutch", lit "European", lit "Yemen", lit "Myanmar", lit "Congo", lit "Venezuela",
  lit "Israel", lit "Gaza", lit "Greenland", lit "Danish", lit "Thailand", lit "Cambodia",
  lit "Malaysia"]

-- POLICY_PATTERNS (lines 141-148)
def POLICY_PATTERNS : List RE := [
  altsS ["crime rate", "crime statistics", "crime down", "crime up"],
  altsS ["police budget", "policing policy", "crime policy"],
  altsS ["crackdown on", "spike in", "rise in", "wave of"],
  cats [altsS ["mayor", "council", "government"], dotStar, altsS ["crime", "police"]],
  cats [altsS ["declares", "declared", "address", "addressing"], dotStar,
    altsS ["epidemic", "crisis"]],
  cats [.bos, lit "In the news today:"]]

-- PERIPHERAL_SPECIFIC_PATTERNS (lines 150-157)
def PERIPHERAL_SPECIFIC_PATTERNS : List RE := [
  cats [lit "stole", dotStar, altsS ["returned", "return"]],
  cats [lit "await", optS "s", lit " Crown", dotStar, altsS ["decision", "charges"]],
  cats [altsS ["law licence", "licence assessment"], dotStar, altsS ["abuse", "assault"]],
  cats [altsS ["cleared", "exonerated"], dotStar, altsS ["arrest", "force"]],
  cats [lit "Year in review", dotStar, altsS ["crime", "high crimes"]]]

-- CANADIAN_LOCATIONS (lines 159-166)
def CANADIAN_LOCATIONS : List RE := [
  lit "Sudbury", lit "Sault", lit "North Bay", lit "Toronto", lit "Ottawa", lit "Hamilton",
  lit "Barrie", lit "Oshawa", lit "Thunder Bay", lit "Montreal", lit "Vancouver", lit "Calgary",
  lit "Edmonton", lit "Winnipeg", lit "Halifax", lit "Regina", lit "Saskatoon", lit "Brampton",
  lit "Mississauga", lit "London", lit "Ontario", lit "Quebec", lit "Manitoba", lit "Alberta",
  lit "British Columbia", lit "Nova Scotia", lit "Ont.", lit "Que."]

-- national-institution keyword list inlined at line 314
def NATIONAL_KEYWORDS : List RE := [lit "RCMP", lit "federal", lit "across Canada",
  lit "nationwide"]

/-! ## Inline regexes of classify_article -/

-- line 205: strong crime keywords suppressing the NON_CRIME exclusion
def strongCrimeRE : RE :=
  altsS ["murder", "homicide", "assault", "theft", "robbery", "arrest", "charged"]
-- line 209
def waterBreakRE : RE :=
  cats [altsS ["water main", "pipe", "infrastructure"], dotStar, altsS ["break", "burst"]]
-- line 211
def sportsTeamRE : RE :=
  cats [alts [cats [lit "Trapper", optS "s"], lit "Wolves", lit "Greyhounds",
    cats [lit "Battalion", optS "s"]], dotStar, alts [lit "hockey", .rep .digit 4]]
-- line 213
def shootsDownRE : RE :=
  cats [lit "shoot", optS "s", lit " down", dotStar, altsS ["rumour", "bill", "proposal"]]
-- line 273
def stoleTheftRE : RE := altsS ["stole", "theft"]
-- line 275
def assaultAbuseRE : RE := altsS ["assault", "abuse", "violence"]
-- line 283: hard-incident keywords that cancel the policy override
def hardIncidentRE : RE :=
  altsS ["charged", "arrest", "sentenced", "murder", "shot", "stabbed"]
-- line 291: collision / injury / fatality cues for impaired driving
def collisionRE : RE :=
  alts [lit "collision", lit "crash", cats [lit "hit", dot1, lit "and", dot1, lit "run"],
    lit "injur", lit "fatal", lit "kill", lit "dies"]

/-! ## The classifier (lines 10-15 and 169-322 of the source) -/

/-- Output record (source lines 10-15).  `relevance` is one of
`core_street_crime`, `peripheral_crime`, `not_crime`; `location` one of
`local_canada`, `national_canada`, `international`, `not_specified`.
Confidences are authored decimal constants in [0,1] with two decimal
digits; we model them exactly in hundredths (`0.95` becomes `95 : ℕ`),
so `0.0` is `0` and the unit interval is `[0,100]`. -/
structure Classification where
  relevance : String
  crime_types : List String
  confidence : ℕ
  location : String
deriving DecidableEq, Repr

/-- Fold of source lines 172-175: running maximum of the confidences of
the matching patterns, starting from `0.0`. -/
def maxConfAux (t : List Char) : List (RE × ℕ) → ℕ → ℕ
  | [], acc => acc
  | (p, c) :: ps, acc => maxConfAux t ps (if reSearch p t then max acc c else acc)

/-- Model of `match_patterns` (source lines 169-176): lowercase the text, take the
maximum confidence over matching patterns, report `(max_conf > 0, max_conf)`. -/
def match_patterns (text : List Char) (patterns : List (RE × ℕ)) : Bool × ℕ :=
  let t := text.map lowerA
  let m := maxConfAux t patterns 0
  (decide (0 < m), m)

/-- Model of `match_any` (source lines 179-185). -/
def match_any (text : List Char) (patterns : List RE) : Bool :=
  patterns.any (fun p => reSearch p (text.map lowerA))

/-- The combined window `f"{title} {body[:500]}"` of source line 192. -/
def combinedOf (title body : List Char) : List Char := title ++ ' ' :: body.take 500

/-- Step 1 of `classify_article` (source lines 196-214): the early-return
exclusion checks, folded into one condition (each loop `return` is an
`any`; the stage-2 loop returns only when the non-crime pattern matches
and no strong crime keyword is present). -/
def excluded (title : List Char) : Bool :=
  EXCLUDE_TITLE_PATTERNS.any (fun p => reSearch p title)
    || NON_CRIME_TITLE_PATTERNS.any (fun p => reSearch p title && !reSearch strongCrimeRE title)
    || reSearch waterBreakRE title || reSearch sportsTeamRE title || reSearch shootsDownRE title

/-- Step 2 of `classify_article` (source lines 216-261): accumulate the
matched crime types in order and the running maximum confidence; the
criminal-justice group is a modifier (lines 250-261). -/
def step2_match (title : List Char) : List String × ℕ :=
  let mv := match_patterns title VIOLENT_CRIME_PATTERNS
  let mp := match_patterns title PROPERTY_CRIME_PATTERNS
  let md := match_patterns title DRUG_CRIME_PATTERNS
  let mg := match_patterns title GANG_PATTERNS
  let mo := match_patterns title ORGANIZED_CRIME_PATTERNS
  let mj := match_patterns title CRIMINAL_JUSTICE_PATTERNS
  let types0 : List String :=
    (if mv.1 then ["violent_crime"] else []) ++
    (if mp.1 then ["property_crime"] else []) ++
    (if md.1 then ["drug_crime"] else []) ++
    (if mg.1 then ["gang_violence"] else []) ++
    (if mo.1 then ["organized_crime"] else [])
  let conf1 : ℕ := if mv.1 then max 0 mv.2 else 0
  let conf2 : ℕ := if mp.1 then max conf1 mp.2 else conf1
  let conf3 : ℕ := if md.1 then max conf2 md.2 else conf2
  let conf4 : ℕ := if mg.1 then max conf3 mg.2 else conf3
  let conf5 : ℕ := if mo.1 then max conf4 mo.2 else conf4
  if mj.1 then
    -- lines 253-258: standalone incidents (escapes, standoffs)
    let typesE := types0 ++ (if reSearch escJailRE title then ["other_crime"] else [])
    let conf6 : ℕ := if reSearch escJailRE title then max conf5 mj.2 else conf5
    let conf7 : ℕ := if reSearch standoffArrRE title then max conf6 mj.2 else conf6
    -- lines 259-261: modifier is added only with another type or standalone
    let types1 := typesE ++
      (if !typesE.isEmpty || reSearch standaloneRE title then ["criminal_justice"] else [])
    (types1, conf7)
  else (types0, conf5)

/-- Model of `classify_article` (source lines 188-322). -/
def classify_article (title body : List Char) : Classification :=
  let combined := combinedOf title body
  -- Step 1 (lines 196-214): exclusions short-circuit with the default record
  if excluded title then ⟨"not_crime", [], 0, "not_specified"⟩
  else
    -- Step 2 (lines 216-261)
    let types := (step2_match title).1
    let conf := (step2_match title).2
    -- Step 3 (lines 263-267)
    let is_international := match_any title INTERNATIONAL_INDICATORS
    let is_impaired := match_any title IMPAIRED_DRIVING_PATTERNS
    let is_policy := match_any title POLICY_PATTERNS
    let is_peripheral_specific := match_any title PERIPHERAL_SPECIFIC_PATTERNS
    -- lines 269-280: peripheral-specific early return (location untouched)
    if is_peripheral_specific then
      ⟨"peripheral_crime",
        if reSearch stoleTheftRE title then ["property_crime", "criminal_justice"]
        else if reSearch assaultAbuseRE title then ["violent_crime", "criminal_justice"]
        else ["criminal_justice"],
        60, "not_specified"⟩
    -- lines 282-287: policy override early return (location untouched)
    else if is_policy && !reSearch hardIncidentRE title then
      ⟨"peripheral_crime", types, 50, "not_specified"⟩
    else
      -- lines 289-309: impaired / international / policy / core chain
      let rtc : String × List String × ℕ :=
        if is_impaired then
          if reSearch collisionRE title then
            ("core_street_crime", types ++ ["violent_crime"], max conf 80)
          else
            ("peripheral_crime", ["criminal_justice"], 70)
        else if is_international && !types.isEmpty then
          ("peripheral_crime", types, min conf 65)
        else if is_policy then
          ("peripheral_crime", types, 50)
        else if !types.isEmpty then
          ("core_street_crime", types, conf)
        else
          ("not_crime", types, conf)
      -- Step 4 (lines 311-317): location tiers over the combined window
      ⟨rtc.1, rtc.2.1, rtc.2.2,
        if match_any combined CANADIAN_LOCATIONS then "local_canada"
        else if match_any combined NATIONAL_KEYWORDS then "national_canada"
        else if is_international then "international"
        else "not_specified"⟩

/-! ## Statement-side definitions for the amended claims -/

/-- The location tiering described by the amended C2: Canadian gazetteer
over the combined window, else national keywords over the combined window,
else international indicators over the title alone, else unspecified. -/
def spec_locTier (title combined : List Char) : String :=
  if match_any combined CANADIAN_LOCATIONS then "local_canada"
  else if match_any combined NATIONAL_KEYWORDS then "national_canada"
  else if match_any title INTERNATIONAL_INDICATORS then "international"
  else "not_specified"

/-- The confidence described by the amended C1: the maximum of the local
confidences of the matched substantive categories, where the
justice-modifier group contributes only when it matched and the title
also matches the inline escape or standoff-arrest regex. -/
def amended_conf (title : List Char) : ℕ :=
  let lcV := if (match_patterns title VIOLENT_CRIME_PATTERNS).1
    then (match_patterns title VIOLENT_CRIME_PATTERNS).2 else 0
  let lcP := if (match_patterns title PROPERTY_CRIME_PATTERNS).1
    then (match_patterns title PROPERTY_CRIME_PATTERNS).2 else 0
  let lcD := if (match_patterns title DRUG_CRIME_PATTERNS).1
    then (match_patterns title DRUG_CRIME_PATTERNS).2 else 0
  let lcG := if (match_patterns title GANG_PATTERNS).1
    then (match_patterns title GANG_PATTERNS).2 else 0
  let lcO := if (match_patterns title ORGANIZED_CRIME_PATTERNS).1
    then (match_patterns title ORGANIZED_CRIME_PATTERNS).2 else 0
  let base := max (max (max (max (max 0 lcV) lcP) lcD) lcG) lcO
  if (match_patterns title CRIMINAL_JUSTICE_PATTERNS).1
      && (reSearch escJailRE title || reSearch standoffArrRE title) then
    max base (match_patterns title CRIMINAL_JUSTICE_PATTERNS).2
  else base

/-! ## Syntactic analysis used for the whitespace-title claim (C8) -/

/-- Character classes that accept no whitespace character. -/
def onlyNonWs : CCls → Bool
  | .dot => false
  | .digit => true
  | .wordc => true
  | .digitComma => true

/-- Does the literal contain a non-whitespace character? -/
def hasNonWs (s : String) : Bool := s.toList.any (fun c => !isWsC c)

/-- A sufficient syntactic criterion for "every match of this regex
consumes at least one non-whitespace character".  Every pattern of the
registry satisfies it, hence none can match a whitespace-only title. -/
def reqNonW : RE → Bool
  | .eps => false
  | .chr p => onlyNonWs p
  | .str s => hasNonWs s
  | .cat a b => reqNonW a || reqNonW b
  | .alt a b => reqNonW a && reqNonW b
  | .opt _ => false
  | .star _ => false
  | .plus p => onlyNonWs p
  | .rep p n => decide (0 < n) && onlyNonWs p
  | .bos => false
  | .eos => false
  | .wordB => false
  | .lbNeg _ => false
  | .laNeg _ => false

/-! ## Claim C3: stage-1/stage-3 exclusions short-circuit -/

/-- C3: any title matching a stage-1 structural exclusion pattern
(`EXCLUDE_TITLE_PATTERNS`) or one of the three stage-3 unconditional
false-positive patterns is classified `not_crime` with empty categories and
confidence `0.0`, regardless of the body. -/
theorem c3_exclusion_short_circuit (title body : List Char)
    (h : EXCLUDE_TITLE_PATTERNS.any (fun p => reSearch p title) = true
      ∨ reSearch waterBreakRE title = true
      ∨ reSearch sportsTeamRE title = true
      ∨ reSearch shootsDownRE title = true) :
    classify_article title body = ⟨"not_crime", [], 0, "not_specified"⟩ := by
  have hex : excluded title = true := by
    unfold excluded
    rcases h with h | h | h | h <;> simp [h]
  simp only [classify_article, hex]
  rfl

/-- Witness for C3 at title `"Spotlight"` (matches `^Spotlight$`) with a
body that would otherwise produce categories and a location. -/
theorem c3_witness :
    (EXCLUDE_TITLE_PATTERNS.any (fun p => reSearch p "Spotlight".toList) = true
      ∨ reSearch waterBreakRE "Spotlight".toList = true
      ∨ reSearch sportsTeamRE "Spotlight".toList = true
      ∨ reSearch shootsDownRE "Spotlight".toList = true)
    ∧ classify_article "Spotlight".toList "Toronto shooting".toList
        = ⟨"not_crime", [], 0, "not_specified"⟩ :=
  ⟨Or.inl (by decide),
   c3_exclusion_short_circuit "Spotlight".toList "Toronto shooting".toList (Or.inl (by decide))⟩

/-! ## Claim C9: the body can only influence the location, through its
first 500 characters -/

/-- Taking the 500-character prefix twice is taking it once. -/
theorem combinedOf_take (title b : List Char) :
    combinedOf title (b.take 500) = combinedOf title b := by
  simp [combinedOf, List.take_take]

/-- C9: relevance, categories and confidence do not depend on the body at
all, and the whole result depends on the body only through its first 500
characters. -/
theorem c9_body_only_location (title b1 b2 : List Char) :
    ((classify_article title b1).relevance = (classify_article title b2).relevance
      ∧ (classify_article title b1).crime_types = (classify_article title b2).crime_types
      ∧ (classify_article title b1).confidence = (classify_article title b2).confidence)
    ∧ classify_article title b1 = classify_article title (b1.take 500) := by
  constructor
  · simp only [classify_article]
    by_cases hex : excluded title
    · simp [hex]
    · by_cases hps : match_any title PERIPHERAL_SPECIFIC_PATTERNS
      · simp [hex, hps]
      · by_cases hpol : (match_any title POLICY_PATTERNS && !reSearch hardIncidentRE title)
        · simp [hex, hps, hpol]
        · simp [hex, hps, hpol]
  · simp only [classify_article, combinedOf_take]

/-! ## Claim C4: the impaired-driving override -/

/-- C4: for a post-exclusion title matching an impaired-driving pattern,
with neither the peripheral-specific nor the policy-without-hard-incident
override firing: a collision/injury/fatality cue makes the article core
with `violent_crime` appended and confidence `max(prior, 80)`; otherwise
it is peripheral with categories exactly `["criminal_justice"]` and
confidence `70` assigned unconditionally. -/
theorem c4_impaired_override (title body : List Char)
    (hex : excluded title = false)
    (himp : match_any title IMPAIRED_DRIVING_PATTERNS = true)
    (hps : match_any title PERIPHERAL_SPECIFIC_PATTERNS = false)
    (hpol : (match_any title POLICY_PATTERNS && !reSearch hardIncidentRE title) = false) :
    (reSearch collisionRE title = true →
      (classify_article title body).relevance = "core_street_crime"
      ∧ (classify_article title body).crime_types = (step2_match title).1 ++ ["violent_crime"]
      ∧ (classify_article title body).confidence = max (step2_match title).2 80)
    ∧ (reSearch collisionRE title = false →
      (classify_article title body).relevance = "peripheral_crime"
      ∧ (classify_article title body).crime_types = ["criminal_justice"]
      ∧ (classify_article title body).confidence = 70) := by
  constructor <;> intro hc <;>
    refine ⟨?_, ?_, ?_⟩ <;> simp [classify_article, hex, himp, hps, hpol, hc]

/-- Witness for C4 on the title `"DUI fatal"` (collision branch). -/
theorem c4_witness :
    excluded "DUI fatal".toList = false
    ∧ match_any "DUI fatal".toList IMPAIRED_DRIVING_PATTERNS = true
    ∧ reSearch collisionRE "DUI fatal".toList = true
    ∧ (classify_article "DUI fatal".toList []).relevance = "core_street_crime"
    ∧ (classify_article "DUI fatal".toList []).crime_types
        = (step2_match "DUI fatal".toList).1 ++ ["violent_crime"]
    ∧ (classify_article "DUI fatal".toList []).confidence
        = max (step2_match "DUI fatal".toList).2 80 :=
  ⟨by decide, by decide, by decide,
    ((c4_impaired_override "DUI fatal".toList [] (by decide) (by decide) (by decide)
      (by decide)).1 (by decide)).1,
    ((c4_impaired_override "DUI fatal".toList [] (by decide) (by decide) (by decide)
      (by decide)).1 (by decide)).2.1,
    ((c4_impaired_override "DUI fatal".toList [] (by decide) (by decide) (by decide)
      (by decide)).1 (by decide)).2.2⟩

/-! ## Claim C5: the international cap -/

/-- C5: a post-exclusion title with a non-empty matched category set that
carries an international indicator, when none of the peripheral-specific,
policy-without-hard-incident or impaired-driving branches fires, is
demoted to peripheral with confidence `min(prior, 65)` — a cap. -/
theorem c5_international_cap (title body : List Char)
    (hex : excluded title = false)
    (hne : (step2_match title).1.isEmpty = false)
    (hint : match_any title INTERNATIONAL_INDICATORS = true)
    (hps : match_any title PERIPHERAL_SPECIFIC_PATTERNS = false)
    (hpol : (match_any title POLICY_PATTERNS && !reSearch hardIncidentRE title) = false)
    (himp : match_any title IMPAIRED_DRIVING_PATTERNS = false) :
    (classify_article title body).relevance = "peripheral_crime"
    ∧ (classify_article title body).confidence = min (step2_match title).2 65
    ∧ (classify_article title body).confidence ≤ 65 := by
  have hmain : (classify_article title body).relevance = "peripheral_crime"
      ∧ (classify_article title body).confidence = min (step2_match title).2 65 := by
    constructor <;> simp [classify_article, hex, hint, hps, hpol, himp, hne]
  exact ⟨hmain.1, hmain.2, hmain.2 ▸ min_le_right _ _⟩

/-- Witness for C5, the scenario named by the claim: the title
`"Minneapolis police investigate downtown shooting"` with empty body is
peripheral with confidence at most `65`. -/
theorem c5_witness :
    excluded "Minneapolis police investigate downtown shooting".toList = false
    ∧ match_any "Minneapolis police investigate downtown shooting".toList
        INTERNATIONAL_INDICATORS = true
    ∧ (classify_article "Minneapolis police investigate downtown shooting".toList []).relevance
        = "peripheral_crime"
    ∧ (classify_article "Minneapolis police investigate downtown shooting".toList []).confidence
        ≤ 65 :=
  ⟨by decide, by decide,
    (c5_international_cap "Minneapolis police investigate downtown shooting".toList []
      (by decide) (by decide) (by decide) (by decide) (by decide) (by decide)).1,
    (c5_international_cap "Minneapolis police investigate downtown shooting".toList []
      (by decide) (by decide) (by decide) (by decide) (by decide) (by decide)).2.2⟩

/-! ## Counterexamples for the corrected claims -/

/-- Counterexample to C1: the title `"police standoff"` survives exclusion
and fires no override branch; the justice-modifier category is present in
the returned list with local confidence `0.75` (pattern
`(police|armed) standoff`), yet the returned confidence is `0.0`, not the
maximum matching weight over the categories present.  The justice
confidence is only folded into the maximum by the inline escape/standoff
sub-checks, neither of which matches here. -/
theorem c1_counterexample :
    excluded "police standoff".toList = false
    ∧ match_any "police standoff".toList PERIPHERAL_SPECIFIC_PATTERNS = false
    ∧ match_any "police standoff".toList POLICY_PATTERNS = false
    ∧ match_any "police standoff".toList IMPAIRED_DRIVING_PATTERNS = false
    ∧ match_any "police standoff".toList INTERNATIONAL_INDICATORS = false
    ∧ (classify_article "police standoff".toList []).crime_types = ["criminal_justice"]
    ∧ (match_patterns "police standoff".toList CRIMINAL_JUSTICE_PATTERNS).2 = 75
    ∧ (classify_article "police standoff".toList []).confidence = 0
    ∧ (classify_article "police standoff".toList []).confidence
        ≠ (match_patterns "police standoff".toList CRIMINAL_JUSTICE_PATTERNS).2 := by decide

/-- Counterexample to C2: two inputs with the same combined
title-plus-body window receive different locations, because the
exclusion-stage early return skips the location stage entirely. -/
theorem c2_counterexample :
    combinedOf "Spotlight".toList "Toronto q".toList
      = combinedOf "Spotlight Toronto".toList "q".toList
    ∧ (classify_article "Spotlight".toList "Toronto q".toList).location = "not_specified"
    ∧ (classify_article "Spotlight Toronto".toList "q".toList).location = "local_canada"
    ∧ (classify_article "Spotlight".toList "Toronto q".toList).location
        ≠ (classify_article "Spotlight Toronto".toList "q".toList).location := by decide

/-- Counterexample to C6: the impaired-driving collision branch appends
`violent_crime` to a list that already contains it, so the returned
category list has a duplicate. -/
theorem c6_counterexample :
    (classify_article "DUI stabbing crash".toList []).crime_types
      = ["violent_crime", "violent_crime"]
    ∧ ¬ (classify_article "DUI stabbing crash".toList []).crime_types.Nodup := by
  refine ⟨by decide, ?_⟩
  intro h
  rw [(by decide : (classify_article "DUI stabbing crash".toList []).crime_types
    = ["violent_crime", "violent_crime"])] at h
  simp at h

/-- Counterexample to C7: the peripheral-specific override returns the
justice-modifier category alone for `"awaits Crown decision"`, a title
that matches no standalone-incident (escape/standoff) pattern. -/
theorem c7_counterexample :
    (classify_article "awaits Crown decision".toList []).crime_types = ["criminal_justice"]
    ∧ reSearch standaloneRE "awaits Crown decision".toList = false := by decide

/-- Counterexample to C8: with an empty title the relevance, categories
and confidence are the claimed defaults, but the location is taken from
the body window, not left `unspecified`. -/
theorem c8_counterexample :
    (classify_article [] "Toronto".toList).relevance = "not_crime"
    ∧ (classify_article [] "Toronto".toList).crime_types = []
    ∧ (classify_article [] "Toronto".toList).confidence = 0
    ∧ (classify_article [] "Toronto".toList).location = "local_canada"
    ∧ (classify_article [] "Toronto".toList).location ≠ "not_specified" := by decide

/-- Counterexample to C10: `"prison escape"` matches the jail/prison-escape
pattern `(jail|prison) escape` of the justice group (weight `0.85`),
survives exclusion and no override replaces its category list, yet the
returned categories are `["criminal_justice"]` without `other_crime`:
only the other escape regex (`escapes?` followed by jail/prison/custody)
triggers the `other_crime` append. -/
theorem c10_counterexample :
    reSearch jailEscapeRE "prison escape".toList = true
    ∧ excluded "prison escape".toList = false
    ∧ match_any "prison escape".toList PERIPHERAL_SPECIFIC_PATTERNS = false
    ∧ match_any "prison escape".toList IMPAIRED_DRIVING_PATTERNS = false
    ∧ (classify_article "prison escape".toList []).crime_types = ["criminal_justice"]
    ∧ "other_crime" ∉ (classify_article "prison escape".toList []).crime_types := by decide

/-! ## Claim C2 (amended): the location tier for inputs reaching step 4 -/

/-- C2 (amended): for inputs that reach the location stage — no exclusion
return and no peripheral-specific or policy early return — the location is
`spec_locTier`: Canadian gazetteer over the combined window, else national
keywords over the combined window, else international indicators over the
title alone, else unspecified.  (The original claim fails: early returns
skip the stage, see `c2_counterexample`, and the international tier reads
the title only.) -/
theorem c2_amended_location (title body : List Char)
    (hex : excluded title = false)
    (hps : match_any title PERIPHERAL_SPECIFIC_PATTERNS = false)
    (hpol : (match_any title POLICY_PATTERNS && !reSearch hardIncidentRE title) = false) :
    (classify_article title body).location = spec_locTier title (combinedOf title body) := by
  simp [classify_article, spec_locTier, hex, hps, hpol]

/-- Witness for the amended C2 at `("x Gaza", "q")`. -/
theorem c2_witness :
    excluded "x Gaza".toList = false
    ∧ match_any "x Gaza".toList PERIPHERAL_SPECIFIC_PATTERNS = false
    ∧ (classify_article "x Gaza".toList "q".toList).location
        = spec_locTier "x Gaza".toList (combinedOf "x Gaza".toList "q".toList)
    ∧ spec_locTier "x Gaza".toList (combinedOf "x Gaza".toList "q".toList) = "international" :=
  ⟨by decide, by decide,
    c2_amended_location "x Gaza".toList "q".toList (by decide) (by decide) (by decide),
    by decide⟩

/-! ## Shape lemmas about the step-2 category list -/

/-- The step-2 list without the justice block is never the sole
justice-modifier. -/
theorem types0_ne_sole_cj (b1 b2 b3 b4 b5 : Bool) :
    ((if b1 then ["violent_crime"] else []) ++ (if b2 then ["property_crime"] else [])
      ++ (if b3 then ["drug_crime"] else []) ++ (if b4 then ["gang_violence"] else [])
      ++ (if b5 then ["organized_crime"] else [])) ≠ ["criminal_justice"] := by
  cases b1 <;> cases b2 <;> cases b3 <;> cases b4 <;> cases b5 <;> decide

/-- Appending the justice modifier guarded by non-emptiness never yields
the sole justice-modifier list. -/
theorem append_guarded_cj_ne (L : List String) :
    L ++ (if !L.isEmpty then ["criminal_justice"] else []) ≠ ["criminal_justice"] := by
  cases L with
  | nil => simp
  | cons a as =>
    intro h
    have hlen := congrArg List.length h
    simp at hlen

/-- A list ending in `violent_crime` is never `["criminal_justice"]`. -/
theorem append_violent_ne_cj (L : List String) :
    L ++ ["violent_crime"] ≠ ["criminal_justice"] := by
  cases L with
  | nil => simp
  | cons a as =>
    intro h
    have hlen := congrArg List.length h
    simp at hlen

/-- If the title matches no standalone-incident pattern, step 2 never
returns the sole justice-modifier list. -/
theorem step2_types_ne_sole_justice (title : List Char)
    (hstand : reSearch standaloneRE title = false) :
    (step2_match title).1 ≠ ["criminal_justice"] := by
  simp only [step2_match, hstand, Bool.or_false]
  rw [apply_ite Prod.fst]
  split
  · exact append_guarded_cj_ne _
  · exact types0_ne_sole_cj _ _ _ _ _

/-! ## Claim C7 (amended): when the justice modifier can stand alone -/

/-- C7 (amended): the returned categories are never exactly
`["criminal_justice"]` unless the title matches a standalone-incident
pattern (standoff/escape), or the peripheral-specific override fires, or
the impaired-driving override fires without a collision cue.  (The
original claim allows only the standalone-incident source; see
`c7_counterexample`.) -/
theorem c7_amended_sole_justice (title body : List Char)
    (hstand : reSearch standaloneRE title = false)
    (hps : match_any title PERIPHERAL_SPECIFIC_PATTERNS = false)
    (himp : match_any title IMPAIRED_DRIVING_PATTERNS = true →
      reSearch collisionRE title = true) :
    (classify_article title body).crime_types ≠ ["criminal_justice"] := by
  have hstep := step2_types_ne_sole_justice title hstand
  by_cases hex : excluded title
  · simp [classify_article, hex]
  · by_cases hpol : (match_any title POLICY_PATTERNS && !reSearch hardIncidentRE title)
    · simp [classify_article, hex, hps, hpol]
      exact hstep
    · by_cases him : match_any title IMPAIRED_DRIVING_PATTERNS
      · have hcol := himp him
        simp [classify_article, hex, hps, hpol, him, hcol]
        exact append_violent_ne_cj _
      · simp [classify_article, hex, hps, hpol, him]
        simp only [apply_ite Prod.snd, apply_ite Prod.fst, ite_self]
        exact hstep

/-- Witness for the amended C7 at title `"arson"`. -/
theorem c7_witness :
    reSearch standaloneRE "arson".toList = false
    ∧ match_any "arson".toList PERIPHERAL_SPECIFIC_PATTERNS = false
    ∧ (classify_article "arson".toList []).crime_types ≠ ["criminal_justice"] :=
  ⟨by decide, by decide,
    c7_amended_sole_justice "arson".toList [] (by decide) (by decide) (by decide)⟩

/-- The full step-2 list shape (justice branch) has no duplicates,
whatever the matches. -/
theorem step2_shape_nodup (b1 b2 b3 b4 b5 besc bcj : Bool) :
    ((if b1 then ["violent_crime"] else []) ++ (if b2 then ["property_crime"] else [])
      ++ (if b3 then ["drug_crime"] else []) ++ (if b4 then ["gang_violence"] else [])
      ++ (if b5 then ["organized_crime"] else []) ++ (if besc then ["other_crime"] else [])
      ++ (if bcj then ["criminal_justice"] else [])).Nodup := by
  cases b1 <;> cases b2 <;> cases b3 <;> cases b4 <;> cases b5 <;> cases besc <;> cases bcj <;>
    decide

/-- The step-2 list shape without the justice block has no duplicates. -/
theorem types0_shape_nodup (b1 b2 b3 b4 b5 : Bool) :
    ((if b1 then ["violent_crime"] else []) ++ (if b2 then ["property_crime"] else [])
      ++ (if b3 then ["drug_crime"] else []) ++ (if b4 then ["gang_violence"] else [])
      ++ (if b5 then ["organized_crime"] else [])).Nodup := by
  cases b1 <;> cases b2 <;> cases b3 <;> cases b4 <;> cases b5 <;> decide

/-- The step-2 category list never contains duplicates. -/
theorem step2_nodup (title : List Char) : (step2_match title).1.Nodup := by
  simp only [step2_match]
  rw [apply_ite Prod.fst]
  split
  · exact step2_shape_nodup _ _ _ _ _ _ _
  · exact types0_shape_nodup _ _ _ _ _

/-- The label `violent_crime` only enters the justice-branch step-2 list through the
violent group. -/
theorem shape_not_violent (b1 b2 b3 b4 b5 besc bcj : Bool) (h : b1 = false) :
    "violent_crime" ∉
      ((if b1 then ["violent_crime"] else []) ++ (if b2 then ["property_crime"] else [])
      ++ (if b3 then ["drug_crime"] else []) ++ (if b4 then ["gang_violence"] else [])
      ++ (if b5 then ["organized_crime"] else []) ++ (if besc then ["other_crime"] else [])
      ++ (if bcj then ["criminal_justice"] else [])) := by
  subst h
  cases b2 <;> cases b3 <;> cases b4 <;> cases b5 <;> cases besc <;> cases bcj <;> decide

/-- The label `violent_crime` only enters the plain step-2 list through the violent
group. -/
theorem types0_not_violent (b1 b2 b3 b4 b5 : Bool) (h : b1 = false) :
    "violent_crime" ∉
      ((if b1 then ["violent_crime"] else []) ++ (if b2 then ["property_crime"] else [])
      ++ (if b3 then ["drug_crime"] else []) ++ (if b4 then ["gang_violence"] else [])
      ++ (if b5 then ["organized_crime"] else [])) := by
  subst h
  cases b2 <;> cases b3 <;> cases b4 <;> cases b5 <;> decide

/-- If the violent group did not match, `violent_crime` is not in the
step-2 list. -/
theorem step2_not_violent (title : List Char)
    (hv : (match_patterns title VIOLENT_CRIME_PATTERNS).1 = false) :
    "violent_crime" ∉ (step2_match title).1 := by
  simp only [step2_match]
  rw [apply_ite Prod.fst]
  split
  · exact shape_not_violent _ _ _ _ _ _ _ hv
  · exact types0_not_violent _ _ _ _ _ hv

/-! ## Claim C6 (amended): no duplicate categories outside the
impaired-collision overlap -/

/-- C6 (amended): the returned category list has no duplicates, except
when the impaired-driving override fires with a collision cue on a title
whose violent group already matched (`c6_counterexample`). -/
theorem c6_amended_nodup (title body : List Char)
    (h : ¬(match_any title IMPAIRED_DRIVING_PATTERNS = true
        ∧ reSearch collisionRE title = true
        ∧ (match_patterns title VIOLENT_CRIME_PATTERNS).1 = true)) :
    (classify_article title body).crime_types.Nodup := by
  by_cases hex : excluded title
  · simp [classify_article, hex]
  · by_cases hps : match_any title PERIPHERAL_SPECIFIC_PATTERNS
    · by_cases h1 : reSearch stoleTheftRE title <;> by_cases h2 : reSearch assaultAbuseRE title <;>
        simp [classify_article, hex, hps, h1, h2]
    · by_cases hpol : (match_any title POLICY_PATTERNS && !reSearch hardIncidentRE title)
      · simp [classify_article, hex, hps, hpol]
        exact step2_nodup title
      · by_cases him : match_any title IMPAIRED_DRIVING_PATTERNS
        · by_cases hcol : reSearch collisionRE title
          · have hv : (match_patterns title VIOLENT_CRIME_PATTERNS).1 = false := by
              rcases Bool.eq_false_or_eq_true
                  (match_patterns title VIOLENT_CRIME_PATTERNS).1 with hv | hv
              · exact absurd ⟨him, hcol, hv⟩ h
              · exact hv
            simp [classify_article, hex, hps, hpol, him, hcol]
            refine List.Nodup.append (step2_nodup title) (by simp) ?_
            intro x hx hy
            simp at hy
            subst hy
            exact step2_not_violent title hv hx
          · simp [classify_article, hex, hps, hpol, him, hcol]
        · simp [classify_article, hex, hps, hpol, him]
          simp only [apply_ite Prod.snd, apply_ite Prod.fst, ite_self]
          exact step2_nodup title

/-- Witness for the amended C6 at `("arson suspect charged", "")`, whose
returned list has several categories, none duplicated. -/
theorem c6_witness :
    ¬(match_any "arson suspect charged".toList IMPAIRED_DRIVING_PATTERNS = true
        ∧ reSearch collisionRE "arson suspect charged".toList = true
        ∧ (match_patterns "arson suspect charged".toList VIOLENT_CRIME_PATTERNS).1 = true)
    ∧ (classify_article "arson suspect charged".toList []).crime_types.Nodup :=
  ⟨by decide, c6_amended_nodup "arson suspect charged".toList [] (by decide)⟩

/-! ## Claim C1 (amended): what the returned confidence actually is -/

/-- When a pattern group did not match, its reported maximum is `0`. -/
theorem match_patterns_zero (t : List Char) (pats : List (RE × ℕ))
    (h : (match_patterns t pats).1 = false) : (match_patterns t pats).2 = 0 := by
  simp only [match_patterns, decide_eq_false_iff_not, Nat.not_lt, Nat.le_zero] at h ⊢
  exact h

/-- Conditional max update rewritten as an unconditional max of the local
confidence. -/
theorem ite_max_step (b : Bool) (acc c : ℕ) (hz : b = false → c = 0) :
    (if b then max acc c else acc) = max acc (if b then c else 0) := by
  cases b
  · simp [hz rfl]
  · simp

/-- The step-2 confidence equals the amended-C1 formula. -/
theorem step2_conf_amended (title : List Char) :
    (step2_match title).2 = amended_conf title := by
  have hzv := match_patterns_zero title VIOLENT_CRIME_PATTERNS
  have hzp := match_patterns_zero title PROPERTY_CRIME_PATTERNS
  have hzd := match_patterns_zero title DRUG_CRIME_PATTERNS
  have hzg := match_patterns_zero title GANG_PATTERNS
  have hzo := match_patterns_zero title ORGANIZED_CRIME_PATTERNS
  simp only [step2_match, amended_conf]
  rw [apply_ite Prod.snd]
  rw [ite_max_step _ _ _ hzv, ite_max_step _ _ _ hzp, ite_max_step _ _ _ hzd,
    ite_max_step _ _ _ hzg, ite_max_step _ _ _ hzo]
  dsimp only
  cases hmj : (match_patterns title CRIMINAL_JUSTICE_PATTERNS).1
  · simp only [Bool.false_eq_true, if_false, Bool.false_and]
  · cases hesc : reSearch escJailRE title <;> cases hst : reSearch standoffArrRE title <;>
        simp only [Bool.true_and, Bool.true_or, Bool.or_true, Bool.or_false, Bool.false_or,
          Bool.or_self, Bool.false_eq_true, Bool.true_eq_false, eq_self_iff_true, if_true,
          if_false]
    rw [Nat.max_assoc, Nat.max_self]

/-- C1 (amended): when the title survives exclusion and no override branch
fires, the returned confidence is `amended_conf`: the maximum local
confidence over the matched substantive groups, with the justice-modifier
group contributing only when the inline escape or standoff-arrest regex
also matches.  (The original claim - maximum over every category present,
justice included unconditionally - fails, see `c1_counterexample`.) -/
theorem c1_amended_confidence (title body : List Char)
    (hex : excluded title = false)
    (hps : match_any title PERIPHERAL_SPECIFIC_PATTERNS = false)
    (hpol : match_any title POLICY_PATTERNS = false)
    (himp : match_any title IMPAIRED_DRIVING_PATTERNS = false)
    (hint : (match_any title INTERNATIONAL_INDICATORS
        && !(step2_match title).1.isEmpty) = false) :
    (classify_article title body).confidence = amended_conf title := by
  have hconf := step2_conf_amended title
  simp [classify_article, hex, hps, hpol, himp, hint]
  simp only [apply_ite Prod.snd, ite_self]
  exact hconf

/-- Witness for the amended C1 at title `"arson"`: one matched category,
confidence `0.80` (80 in hundredths). -/
theorem c1_witness :
    excluded "arson".toList = false
    ∧ match_any "arson".toList POLICY_PATTERNS = false
    ∧ (match_any "arson".toList INTERNATIONAL_INDICATORS
        && !(step2_match "arson".toList).1.isEmpty) = false
    ∧ (classify_article "arson".toList []).confidence = amended_conf "arson".toList
    ∧ amended_conf "arson".toList = 80 :=
  ⟨by decide, by decide, by decide,
    c1_amended_confidence "arson".toList [] (by decide) (by decide) (by decide) (by decide)
      (by decide),
    by decide⟩

/-! ## Lowercasing invariance of the matcher, and claim C10 (amended) -/

/-! char-level lemmas -/

theorem toNat_lowerA (c : Char) : (lowerA c).toNat = lowN c.toNat := by
  have hv : (lowN c.toNat).isValidChar := by
    have hc := c.valid
    unfold lowN
    split
    · left; omega
    · exact hc
  unfold lowerA Char.ofNat
  rw [dif_pos hv]
  rfl

theorem lowN_idem (n : Nat) : lowN (lowN n) = lowN n := by
  unfold lowN
  split <;> (try split) <;> omega

theorem cmatch_lowerA (p : CCls) (c : Char) : cmatch p (lowerA c) = cmatch p c := by
  have h := toNat_lowerA c
  cases p <;>
    simp only [cmatch, isDigitC, isWordC, h] <;>
    rw [Bool.eq_iff_iff] <;>
    simp only [Bool.or_eq_true, Bool.and_eq_true, Bool.not_eq_true', beq_iff_eq,
      beq_eq_false_iff_ne, ne_eq, decide_eq_true_eq] <;>
    unfold lowN <;> split <;> omega

theorem charEq_lowerA_right (x d : Char) : charEq x (lowerA d) = charEq x d := by
  simp only [charEq, toNat_lowerA, lowN_idem]

theorem isWordC_lowerA (c : Char) : isWordC (lowerA c) = isWordC c := by
  have h := toNat_lowerA c
  simp only [isWordC, isDigitC, h]
  rw [Bool.eq_iff_iff]
  simp only [Bool.or_eq_true, Bool.and_eq_true, beq_iff_eq, decide_eq_true_eq]
  unfold lowN
  split <;> omega

theorem toNat_lowerA_eq_ten (c : Char) : ((lowerA c).toNat == 10) = (c.toNat == 10) := by
  have h := toNat_lowerA c
  rw [Bool.eq_iff_iff]
  simp only [h, beq_iff_eq]
  unfold lowN
  split <;> omega

/-! congruence in the continuation -/

theorem matchLit_congr (cs l rt : List Char) (k₁ k₂ : List Char → List Char → Bool)
    (hk : ∀ a b, k₁ a b = k₂ a b) : matchLit cs l rt k₁ = matchLit cs l rt k₂ := by
  induction cs generalizing l rt with
  | nil => exact hk l rt
  | cons c cs ih =>
    cases rt with
    | nil => rfl
    | cons d rt => simp only [matchLit]; rw [ih]

theorem starMatch_congr (p : CCls) (l rt : List Char) (k₁ k₂ : List Char → List Char → Bool)
    (hk : ∀ a b, k₁ a b = k₂ a b) : starMatch p l rt k₁ = starMatch p l rt k₂ := by
  induction rt generalizing l with
  | nil => exact hk l []
  | cons c rt ih => simp only [starMatch]; rw [hk, ih]

theorem repMatch_congr (p : CCls) (n : Nat) (l rt : List Char)
    (k₁ k₂ : List Char → List Char → Bool) (hk : ∀ a b, k₁ a b = k₂ a b) :
    repMatch p n l rt k₁ = repMatch p n l rt k₂ := by
  induction n generalizing l rt with
  | zero => exact hk l rt
  | succ n ih =>
    cases rt with
    | nil => rfl
    | cons c rt => simp only [repMatch]; rw [ih]

theorem mre_congr (r : RE) (l rt : List Char) (k₁ k₂ : List Char → List Char → Bool)
    (hk : ∀ a b, k₁ a b = k₂ a b) : mre r l rt k₁ = mre r l rt k₂ := by
  induction r generalizing l rt k₁ k₂ with
  | eps => exact hk l rt
  | chr p =>
    cases rt with
    | nil => rfl
    | cons c rt => simp only [mre]; rw [hk]
  | str s => exact matchLit_congr _ _ _ _ _ hk
  | cat a b iha ihb => simp only [mre]; exact iha _ _ _ _ (fun x y => ihb _ _ _ _ hk)
  | alt a b iha ihb => simp only [mre]; rw [iha _ _ _ _ hk, ihb _ _ _ _ hk]
  | opt a iha => simp only [mre]; rw [hk, iha _ _ _ _ hk]
  | star p => exact starMatch_congr _ _ _ _ _ hk
  | plus p =>
    cases rt with
    | nil => rfl
    | cons c rt => simp only [mre]; rw [starMatch_congr _ _ _ _ _ hk]
  | rep p n => exact repMatch_congr _ _ _ _ _ _ hk
  | bos => simp only [mre]; rw [hk]
  | eos => simp only [mre]; rw [hk]
  | wordB => simp only [mre]; rw [hk]
  | lbNeg s => simp only [mre]; rw [hk]
  | laNeg a iha => simp only [mre]; rw [hk]

/-! the matcher is invariant under lowercasing the text -/

theorem isEmpty_map_lowerA (l : List Char) : (l.map lowerA).isEmpty = l.isEmpty := by
  cases l <;> rfl

theorem isWordAt_lower (l : List Char) : isWordAt (l.map lowerA) = isWordAt l := by
  cases l with
  | nil => rfl
  | cons c l => simp only [List.map_cons, isWordAt, isWordC_lowerA]

theorem revEnds_lower (cs l : List Char) : revEnds cs (l.map lowerA) = revEnds cs l := by
  induction cs generalizing l with
  | nil => rfl
  | cons c cs ih =>
    cases l with
    | nil => rfl
    | cons d l => simp only [List.map_cons, revEnds, charEq_lowerA_right, ih]

theorem matchLit_lower (cs l rt : List Char) (k : List Char → List Char → Bool) :
    matchLit cs (l.map lowerA) (rt.map lowerA) k
      = matchLit cs l rt (fun a b => k (a.map lowerA) (b.map lowerA)) := by
  induction cs generalizing l rt with
  | nil => rfl
  | cons c cs ih =>
    cases rt with
    | nil => rfl
    | cons d rt =>
      simp only [List.map_cons, matchLit, charEq_lowerA_right]
      rw [← List.map_cons lowerA d l, ih]

theorem starMatch_lower (p : CCls) (l rt : List Char) (k : List Char → List Char → Bool) :
    starMatch p (l.map lowerA) (rt.map lowerA) k
      = starMatch p l rt (fun a b => k (a.map lowerA) (b.map lowerA)) := by
  induction rt generalizing l with
  | nil => rfl
  | cons c rt ih =>
    simp only [List.map_cons, starMatch, cmatch_lowerA]
    rw [← List.map_cons lowerA c rt, ← List.map_cons lowerA c l, ih]

theorem repMatch_lower (p : CCls) (n : Nat) (l rt : List Char)
    (k : List Char → List Char → Bool) :
    repMatch p n (l.map lowerA) (rt.map lowerA) k
      = repMatch p n l rt (fun a b => k (a.map lowerA) (b.map lowerA)) := by
  induction n generalizing l rt with
  | zero => rfl
  | succ n ih =>
    cases rt with
    | nil => rfl
    | cons c rt =>
      simp only [List.map_cons, repMatch, cmatch_lowerA]
      rw [← List.map_cons lowerA c l, ih]

theorem mre_lower (r : RE) (l rt : List Char) (k : List Char → List Char → Bool) :
    mre r (l.map lowerA) (rt.map lowerA) k
      = mre r l rt (fun a b => k (a.map lowerA) (b.map lowerA)) := by
  induction r generalizing l rt k with
  | eps => rfl
  | chr p =>
    cases rt with
    | nil => rfl
    | cons c rt =>
      simp only [List.map_cons, mre, cmatch_lowerA]
  | str s => exact matchLit_lower _ _ _ _
  | cat a b iha ihb =>
    simp only [mre]
    rw [iha]
    exact mre_congr _ _ _ _ _ (fun x y => ihb _ _ _)
  | alt a b iha ihb => simp only [mre]; rw [iha, ihb]
  | opt a iha => simp only [mre]; rw [iha]
  | star p => exact starMatch_lower _ _ _ _
  | plus p =>
    cases rt with
    | nil => rfl
    | cons c rt =>
      simp only [List.map_cons, mre, cmatch_lowerA]
      rw [← List.map_cons lowerA c l, starMatch_lower]
  | rep p n => exact repMatch_lower _ _ _ _ _
  | bos => simp only [mre, isEmpty_map_lowerA]
  | eos =>
    cases rt with
    | nil => rfl
    | cons c rt =>
      simp only [List.map_cons, mre, isEmpty_map_lowerA, toNat_lowerA_eq_ten]
  | wordB => simp only [mre, isWordAt_lower]
  | lbNeg s => simp only [mre, revEnds_lower]
  | laNeg a iha =>
    simp only [mre]
    rw [iha]

theorem searchFrom_lower (r : RE) (l t : List Char) :
    searchFrom r (l.map lowerA) (t.map lowerA) = searchFrom r l t := by
  induction t generalizing l with
  | nil =>
    simp only [List.map_nil, searchFrom]
    have h1 := mre_lower r l [] (fun _ _ => true)
    simpa using h1
  | cons c t ih =>
    simp only [List.map_cons, searchFrom]
    rw [← List.map_cons lowerA c t, mre_lower, ← List.map_cons lowerA c l, ih]

theorem reSearch_lower (r : RE) (t : List Char) :
    reSearch r (t.map lowerA) = reSearch r t := by
  have h := searchFrom_lower r [] t
  simpa only [reSearch, List.map_nil] using h

/-! bounds on the running maximum of match_patterns -/

theorem le_maxConfAux (t : List Char) (ps : List (RE × ℕ)) (acc : ℕ) :
    acc ≤ maxConfAux t ps acc := by
  induction ps generalizing acc with
  | nil => simp [maxConfAux]
  | cons pc ps ih =>
    obtain ⟨p, c⟩ := pc
    simp only [maxConfAux]
    split
    · exact le_trans (Nat.le_max_left _ _) (ih _)
    · exact ih _

theorem maxConfAux_mem (t : List Char) (ps : List (RE × ℕ)) (acc : ℕ) (p : RE) (c : ℕ)
    (hmem : (p, c) ∈ ps) (hs : reSearch p t = true) : c ≤ maxConfAux t ps acc := by
  induction ps generalizing acc with
  | nil => cases hmem
  | cons pc ps ih =>
    obtain ⟨q, d⟩ := pc
    rcases List.mem_cons.mp hmem with h | h
    · obtain ⟨hq, hd⟩ := Prod.mk.injEq p c q d ▸ h
      subst hq
      subst hd
      simp only [maxConfAux, hs, if_true]
      exact le_trans (Nat.le_max_right _ _) (le_maxConfAux _ _ _)
    · simp only [maxConfAux]
      exact ih _ h

/-- A matching member pattern with positive weight makes the group match. -/
theorem match_patterns_of_search (t : List Char) (pats : List (RE × ℕ)) (p : RE) (c : ℕ)
    (hmem : (p, c) ∈ pats) (hc : 0 < c) (hs : reSearch p t = true) :
    (match_patterns t pats).1 = true := by
  simp only [match_patterns, decide_eq_true_eq]
  have h1 : c ≤ maxConfAux (t.map lowerA) pats 0 :=
    maxConfAux_mem _ _ _ _ _ hmem (by rw [reSearch_lower]; exact hs)
  omega

/-- With the justice group matched and the inline escape regex matching,
step 2 emits both `other_crime` and `criminal_justice`. -/
theorem step2_escape_mem (title : List Char)
    (hmj : (match_patterns title CRIMINAL_JUSTICE_PATTERNS).1 = true)
    (hesc : reSearch escJailRE title = true) :
    "other_crime" ∈ (step2_match title).1 ∧ "criminal_justice" ∈ (step2_match title).1 := by
  simp only [step2_match, hmj, hesc, if_true]
  constructor
  · exact List.mem_append_left _ (List.mem_append_right _ (by simp))
  · refine List.mem_append_right _ ?_
    rw [if_pos (by simp)]
    simp

/-- C10 (amended): a post-exclusion title matching the inline escape
regex (`escapes?` followed by jail/prison/custody), when no override
replaces the category list (no peripheral-specific match; impaired only
with a collision cue), receives `other_crime` — a category outside the six
documented ones — alongside `criminal_justice`.  (As stated over the
jail/prison-escape patterns of the justice group the claim fails, see
`c10_counterexample`: `(jail|prison) escape` titles get no `other_crime`.) -/
theorem c10_amended_other_crime (title body : List Char)
    (hex : excluded title = false)
    (hesc : reSearch escJailRE title = true)
    (hps : match_any title PERIPHERAL_SPECIFIC_PATTERNS = false)
    (himp : match_any title IMPAIRED_DRIVING_PATTERNS = true →
      reSearch collisionRE title = true) :
    "other_crime" ∈ (classify_article title body).crime_types
    ∧ "criminal_justice" ∈ (classify_article title body).crime_types := by
  have hmj : (match_patterns title CRIMINAL_JUSTICE_PATTERNS).1 = true :=
    match_patterns_of_search title CRIMINAL_JUSTICE_PATTERNS escJailRE 85
      (by simp [CRIMINAL_JUSTICE_PATTERNS]) (by omega) hesc
  obtain ⟨ho, hc⟩ := step2_escape_mem title hmj hesc
  by_cases hpol : (match_any title POLICY_PATTERNS && !reSearch hardIncidentRE title)
  · constructor <;> simp [classify_article, hex, hps, hpol] <;> assumption
  · by_cases him : match_any title IMPAIRED_DRIVING_PATTERNS
    · have hcol := himp him
      constructor <;> simp [classify_article, hex, hps, hpol, him, hcol] <;> assumption
    · constructor <;> simp [classify_article, hex, hps, hpol, him] <;>
        simp only [apply_ite Prod.snd, apply_ite Prod.fst, ite_self] <;> assumption

/-- Witness for the amended C10 at title `"escapes custody"`. -/
theorem c10_witness :
    excluded "escapes custody".toList = false
    ∧ reSearch escJailRE "escapes custody".toList = true
    ∧ "other_crime" ∈ (classify_article "escapes custody".toList []).crime_types
    ∧ "criminal_justice" ∈ (classify_article "escapes custody".toList []).crime_types :=
  ⟨by decide, by decide,
    (c10_amended_other_crime "escapes custody".toList [] (by decide) (by decide) (by decide)
      (by decide)).1,
    (c10_amended_other_crime "escapes custody".toList [] (by decide) (by decide) (by decide)
      (by decide)).2⟩

/-! ## Whitespace-only titles (claim C8, amended) -/

/-! suffix extraction from a successful match -/

theorem matchLit_sfx (cs l rt : List Char) (k : List Char → List Char → Bool)
    (h : matchLit cs l rt k = true) : ∃ l' r', r' <:+ rt ∧ k l' r' = true := by
  induction cs generalizing l rt with
  | nil => exact ⟨l, rt, List.suffix_refl _, h⟩
  | cons c cs ih =>
    cases rt with
    | nil => simp [matchLit] at h
    | cons d rt =>
      simp only [matchLit, Bool.and_eq_true] at h
      obtain ⟨l', r', hs, hk⟩ := ih _ _ h.2
      exact ⟨l', r', hs.trans (List.suffix_cons d rt), hk⟩

theorem starMatch_sfx (p : CCls) (l rt : List Char) (k : List Char → List Char → Bool)
    (h : starMatch p l rt k = true) : ∃ l' r', r' <:+ rt ∧ k l' r' = true := by
  induction rt generalizing l with
  | nil => exact ⟨l, [], List.suffix_refl _, h⟩
  | cons c rt ih =>
    simp only [starMatch, Bool.or_eq_true, Bool.and_eq_true] at h
    rcases h with h | ⟨_, h⟩
    · exact ⟨l, c :: rt, List.suffix_refl _, h⟩
    · obtain ⟨l', r', hs, hk⟩ := ih _ h
      exact ⟨l', r', hs.trans (List.suffix_cons c rt), hk⟩

theorem repMatch_sfx (p : CCls) (n : Nat) (l rt : List Char) (k : List Char → List Char → Bool)
    (h : repMatch p n l rt k = true) : ∃ l' r', r' <:+ rt ∧ k l' r' = true := by
  induction n generalizing l rt with
  | zero => exact ⟨l, rt, List.suffix_refl _, h⟩
  | succ n ih =>
    cases rt with
    | nil => simp [repMatch] at h
    | cons c rt =>
      simp only [repMatch, Bool.and_eq_true] at h
      obtain ⟨l', r', hs, hk⟩ := ih _ _ h.2
      exact ⟨l', r', hs.trans (List.suffix_cons c rt), hk⟩

theorem mre_sfx (r : RE) (l rt : List Char) (k : List Char → List Char → Bool)
    (h : mre r l rt k = true) : ∃ l' r', r' <:+ rt ∧ k l' r' = true := by
  induction r generalizing l rt k with
  | eps => exact ⟨l, rt, List.suffix_refl _, h⟩
  | chr p =>
    cases rt with
    | nil => simp [mre] at h
    | cons c rt =>
      simp only [mre, Bool.and_eq_true] at h
      exact ⟨c :: l, rt, List.suffix_cons c rt, h.2⟩
  | str s => exact matchLit_sfx _ _ _ _ h
  | cat a b iha ihb =>
    simp only [mre] at h
    obtain ⟨l1, r1, hs1, hk1⟩ := iha _ _ _ h
    obtain ⟨l2, r2, hs2, hk2⟩ := ihb _ _ _ hk1
    exact ⟨l2, r2, hs2.trans hs1, hk2⟩
  | alt a b iha ihb =>
    simp only [mre, Bool.or_eq_true] at h
    rcases h with h | h
    · exact iha _ _ _ h
    · exact ihb _ _ _ h
  | opt a iha =>
    simp only [mre, Bool.or_eq_true] at h
    rcases h with h | h
    · exact ⟨l, rt, List.suffix_refl _, h⟩
    · exact iha _ _ _ h
  | star p => exact starMatch_sfx _ _ _ _ h
  | plus p =>
    cases rt with
    | nil => simp [mre] at h
    | cons c rt =>
      simp only [mre, Bool.and_eq_true] at h
      obtain ⟨l', r', hs, hk⟩ := starMatch_sfx _ _ _ _ h.2
      exact ⟨l', r', hs.trans (List.suffix_cons c rt), hk⟩
  | rep p n => exact repMatch_sfx _ _ _ _ _ h
  | bos =>
    simp only [mre, Bool.and_eq_true] at h
    exact ⟨l, rt, List.suffix_refl _, h.2⟩
  | eos =>
    simp only [mre, Bool.and_eq_true] at h
    exact ⟨l, rt, List.suffix_refl _, h.2⟩
  | wordB =>
    simp only [mre, Bool.and_eq_true] at h
    exact ⟨l, rt, List.suffix_refl _, h.2⟩
  | lbNeg s =>
    simp only [mre, Bool.and_eq_true] at h
    exact ⟨l, rt, List.suffix_refl _, h.2⟩
  | laNeg a iha =>
    simp only [mre, Bool.and_eq_true] at h
    exact ⟨l, rt, List.suffix_refl _, h.2⟩

/-! whitespace-only text defeats every pattern of the registry -/

theorem isWsC_lowerA (c : Char) : isWsC (lowerA c) = isWsC c := by
  have h := toNat_lowerA c
  simp only [isWsC, h]
  rw [Bool.eq_iff_iff]
  simp only [Bool.or_eq_true, beq_iff_eq]
  unfold lowN
  split <;> omega

theorem cmatch_ws (p : CCls) (c : Char) (hp : onlyNonWs p = true) (hc : isWsC c = true) :
    cmatch p c = false := by
  simp only [isWsC, Bool.or_eq_true, beq_iff_eq] at hc
  cases p
  · cases hp
  all_goals
    rw [Bool.eq_false_iff]
    intro hmat
    simp only [cmatch, isDigitC, isWordC, Bool.and_eq_true, Bool.or_eq_true,
      decide_eq_true_eq, beq_iff_eq] at hmat
    omega

theorem charEq_ws (c d : Char) (hc : isWsC c = false) (hd : isWsC d = true) :
    charEq c d = false := by
  simp only [isWsC, Bool.or_eq_true, beq_iff_eq] at hd
  simp only [isWsC, Bool.or_eq_false_iff, beq_eq_false_iff_ne, ne_eq] at hc
  rw [Bool.eq_false_iff]
  intro h
  simp only [charEq, beq_iff_eq] at h
  unfold lowN at h
  split at h <;> split at h <;> omega

theorem matchLit_ws (cs l rt : List Char) (k : List Char → List Char → Bool)
    (hne : cs.any (fun c => !isWsC c) = true)
    (hws : ∀ c ∈ rt, isWsC c = true) :
    matchLit cs l rt k = false := by
  induction cs generalizing l rt with
  | nil => simp at hne
  | cons c cs ih =>
    cases rt with
    | nil => rfl
    | cons d rt =>
      simp only [matchLit]
      cases hb : isWsC c with
      | false =>
        rw [charEq_ws c d hb (hws d (List.mem_cons_self d rt))]
        rfl
      | true =>
        simp only [List.any_cons, hb, Bool.not_true, Bool.false_or] at hne
        rw [ih _ _ hne (fun x hx => hws x (List.mem_cons_of_mem d hx))]
        simp

theorem ws_mre (r : RE) (hr : reqNonW r = true) :
    ∀ (l rt : List Char) (k : List Char → List Char → Bool),
      (∀ c ∈ rt, isWsC c = true) → mre r l rt k = false := by
  induction r with
  | eps => cases hr
  | chr p =>
    intro l rt k hws
    cases rt with
    | nil => rfl
    | cons c rt =>
      simp only [mre, cmatch_ws p c hr (hws c (List.mem_cons_self c rt))]
      rfl
  | str s =>
    intro l rt k hws
    exact matchLit_ws _ _ _ _ hr hws
  | cat a b iha ihb =>
    intro l rt k hws
    simp only [reqNonW, Bool.or_eq_true] at hr
    rcases hr with ha | hb
    · simp only [mre]
      exact iha ha _ _ _ hws
    · rw [Bool.eq_false_iff]
      intro htr
      simp only [mre] at htr
      obtain ⟨l1, r1, hs, hk⟩ := mre_sfx _ _ _ _ htr
      have hws1 : ∀ c ∈ r1, isWsC c = true := fun c hc => hws c (hs.subset hc)
      rw [ihb hb _ _ _ hws1] at hk
      cases hk
  | alt a b iha ihb =>
    intro l rt k hws
    simp only [reqNonW, Bool.and_eq_true] at hr
    simp only [mre, iha hr.1 _ _ _ hws, ihb hr.2 _ _ _ hws]
    rfl
  | opt a iha => cases hr
  | star p => cases hr
  | plus p =>
    intro l rt k hws
    cases rt with
    | nil => rfl
    | cons c rt =>
      simp only [mre, cmatch_ws p c hr (hws c (List.mem_cons_self c rt))]
      rfl
  | rep p n =>
    intro l rt k hws
    simp only [reqNonW, Bool.and_eq_true, decide_eq_true_eq] at hr
    obtain ⟨hn, hp⟩ := hr
    cases n with
    | zero => omega
    | succ n =>
      cases rt with
      | nil => rfl
      | cons c rt =>
        simp only [mre, repMatch, cmatch_ws p c hp (hws c (List.mem_cons_self c rt))]
        rfl
  | bos => cases hr
  | eos => cases hr
  | wordB => cases hr
  | lbNeg s => cases hr
  | laNeg a iha => cases hr

theorem searchFrom_ws (r : RE) (hr : reqNonW r = true) (l t : List Char)
    (hws : ∀ c ∈ t, isWsC c = true) : searchFrom r l t = false := by
  induction t generalizing l with
  | nil =>
    simp only [searchFrom]
    exact ws_mre r hr l [] _ (by intro c hc; cases hc)
  | cons c t ih =>
    simp only [searchFrom, ws_mre r hr l (c :: t) _ hws, Bool.false_or]
    exact ih _ (fun x hx => hws x (List.mem_cons_of_mem c hx))

theorem reSearch_ws (r : RE) (t : List Char) (hr : reqNonW r = true)
    (hws : ∀ c ∈ t, isWsC c = true) : reSearch r t = false :=
  searchFrom_ws r hr [] t hws

theorem map_lowerA_ws (t : List Char) (hws : ∀ c ∈ t, isWsC c = true) :
    ∀ c ∈ t.map lowerA, isWsC c = true := by
  intro c hc
  obtain ⟨d, hd, rfl⟩ := List.mem_map.mp hc
  rw [isWsC_lowerA]
  exact hws d hd

theorem match_any_ws (t : List Char) (pats : List RE)
    (hall : pats.all reqNonW = true) (hws : ∀ c ∈ t, isWsC c = true) :
    match_any t pats = false := by
  simp only [match_any, List.any_eq_false]
  intro p hp
  simp [reSearch_ws p (t.map lowerA) (List.all_eq_true.mp hall p hp) (map_lowerA_ws t hws)]

theorem maxConfAux_ws (t : List Char) (ps : List (RE × ℕ))
    (hall : ps.all (fun pc => reqNonW pc.1) = true)
    (hws : ∀ c ∈ t, isWsC c = true) : maxConfAux t ps 0 = 0 := by
  induction ps with
  | nil => rfl
  | cons pc ps ih =>
    obtain ⟨p, c⟩ := pc
    simp only [List.all_cons, Bool.and_eq_true] at hall
    simp only [maxConfAux, reSearch_ws p t hall.1 hws, Bool.false_eq_true, if_false]
    exact ih hall.2

theorem match_patterns_ws (t : List Char) (ps : List (RE × ℕ))
    (hall : ps.all (fun pc => reqNonW pc.1) = true)
    (hws : ∀ c ∈ t, isWsC c = true) :
    match_patterns t ps = (false, 0) := by
  have h0 := maxConfAux_ws (t.map lowerA) ps hall (map_lowerA_ws t hws)
  simp only [match_patterns, h0]
  rfl

theorem excluded_ws (title : List Char) (hws : ∀ c ∈ title, isWsC c = true) :
    excluded title = false := by
  simp only [excluded, Bool.or_eq_false_iff]
  refine ⟨⟨⟨⟨?_, ?_⟩, ?_⟩, ?_⟩, ?_⟩
  · simp only [List.any_eq_false]
    intro p hp
    simp [reSearch_ws p title (List.all_eq_true.mp
      (by decide : EXCLUDE_TITLE_PATTERNS.all reqNonW = true) p hp) hws]
  · simp only [List.any_eq_false]
    intro p hp
    simp [reSearch_ws p title (List.all_eq_true.mp
      (by decide : NON_CRIME_TITLE_PATTERNS.all reqNonW = true) p hp) hws]
  · exact reSearch_ws _ title (by decide) hws
  · exact reSearch_ws _ title (by decide) hws
  · exact reSearch_ws _ title (by decide) hws

theorem step2_ws (title : List Char) (hws : ∀ c ∈ title, isWsC c = true) :
    step2_match title = ([], 0) := by
  have hv := match_patterns_ws title VIOLENT_CRIME_PATTERNS (by decide) hws
  have hp := match_patterns_ws title PROPERTY_CRIME_PATTERNS (by decide) hws
  have hd := match_patterns_ws title DRUG_CRIME_PATTERNS (by decide) hws
  have hg := match_patterns_ws title GANG_PATTERNS (by decide) hws
  have ho := match_patterns_ws title ORGANIZED_CRIME_PATTERNS (by decide) hws
  have hj := match_patterns_ws title CRIMINAL_JUSTICE_PATTERNS (by decide) hws
  simp [step2_match, hv, hp, hd, hg, ho, hj]

/-- C8 (amended): for a whitespace-only (possibly empty) title and any
body, the classification is `not_crime` with no categories and confidence
`0`; the location is `not_specified` exactly when the combined window
matches neither the Canadian gazetteer nor the national keywords.  (The
original claim promised `not_specified` for every body; it fails because
the location stage scans the combined window, see `c8_counterexample`.) -/
theorem c8_amended_whitespace_title (title body : List Char)
    (hws : title.all isWsC = true) :
    (classify_article title body).relevance = "not_crime"
    ∧ (classify_article title body).crime_types = []
    ∧ (classify_article title body).confidence = 0
    ∧ ((classify_article title body).location = "not_specified"
      ↔ (match_any (combinedOf title body) CANADIAN_LOCATIONS = false
        ∧ match_any (combinedOf title body) NATIONAL_KEYWORDS = false)) := by
  have hws' : ∀ c ∈ title, isWsC c = true := List.all_eq_true.mp hws
  have hex := excluded_ws title hws'
  have hps := match_any_ws title PERIPHERAL_SPECIFIC_PATTERNS (by decide) hws'
  have hpol := match_any_ws title POLICY_PATTERNS (by decide) hws'
  have himp := match_any_ws title IMPAIRED_DRIVING_PATTERNS (by decide) hws'
  have hint := match_any_ws title INTERNATIONAL_INDICATORS (by decide) hws'
  have hstep := step2_ws title hws'
  refine ⟨?_, ?_, ?_, ?_⟩
  · simp [classify_article, hex, hps, hpol, himp, hint, hstep]
  · simp [classify_article, hex, hps, hpol, himp, hint, hstep]
  · simp [classify_article, hex, hps, hpol, himp, hint, hstep]
  · by_cases hcan : match_any (combinedOf title body) CANADIAN_LOCATIONS
    · simp [classify_article, hex, hps, hpol, himp, hint, hstep, hcan]
    · by_cases hnat : match_any (combinedOf title body) NATIONAL_KEYWORDS
      · simp [classify_article, hex, hps, hpol, himp, hint, hstep, hcan, hnat]
      · simp [classify_article, hex, hps, hpol, himp, hint, hstep, hcan, hnat]

/-- Witness for the amended C8 at the whitespace title `" "`. -/
theorem c8_witness :
    " ".toList.all isWsC = true
    ∧ (classify_article " ".toList []).relevance = "not_crime"
    ∧ (classify_article " ".toList []).crime_types = []
    ∧ (classify_article " ".toList []).confidence = 0
    ∧ (classify_article " ".toList []).location = "not_specified" := by
  have h := c8_amended_whitespace_title " ".toList [] (by decide)
  refine ⟨by decide, h.1, h.2.1, h.2.2.1, ?_⟩
  exact h.2.2.2.mpr ⟨by decide, by decide⟩
